import Mathlib

/-!
Verification development for the analytical-ai-agent repository.

The Lean definitions below are a shallow embedding of the retrieval-and-query
subsystem of the repository:

* `src/vectordb/vector_store.py` — the FAISS-backed `VectorStore`
  (`add_vectors`, `search`);
* `src/agents/pandas_engine.py` — the deterministic pandas engine
  (`compare_averages`, `filter_threshold`, `sort_data`, `top_n`);
* `src/agents/ingestion.py` — the CSV store registry (insertion-ordered
  dict of dataframes, default-source fallback);
* `src/agents/document_ingestion.py` — chunking (`chunk_text`),
  QA extraction (`extract_questions_and_answers`) and document ingestion
  (`ingest_document`, `_vectorize_document`).

Modelling conventions:

* Python floats are modelled as exact rationals (`ℚ`); numeric formulas
  (means, percentages, differences) are stated exactly.
* `faiss.normalize_L2` divides a vector by its Euclidean norm, which is
  irrational in general.  We store vectors unnormalized and perform the
  nearest-neighbour ranking with an exact rational comparator (`simGe`)
  that decides `‖q̂ − v̂‖ ≤ ‖q̂ − ŵ‖` for the normalized vectors (the
  ranking depends only on vector directions, and normalizing is the
  identity on directions), so counts and rankings agree with the
  normalize-then-L2 pipeline of the source.  Returned float distances are
  irrational and are not modelled; no claim concerns their values.
* Python dicts preserve insertion order; they are modelled as association
  lists where assignment overwrites in place and appends new keys.
* File-system reads, wall-clock timestamps and the external embedding
  service are outside the embedded core: text content, file ids and the
  embedding function are taken as parameters.
-/

set_option maxRecDepth 4000

/-- Python whitespace for `str.strip` / `str.split()` / the regex class
`\s`: space, tab, newline, carriage return, vertical tab, form feed. -/
def isPySpace (c : Char) : Bool :=
  c == ' ' || c == '\t' || c == '\n' || c == '\r' || c == '\x0b' || c == '\x0c'

/-- Python `str.strip()` on a character list. -/
def pyStrip (l : List Char) : List Char :=
  ((l.dropWhile isPySpace).reverse.dropWhile isPySpace).reverse

/-- Python `text.split(chr(10))`: split on every newline, keeping empty
pieces (so `"".split` gives one empty piece). -/
def splitOnNl : List Char → List (List Char)
  | [] => [[]]
  | c :: cs =>
    if c == '\n' then [] :: splitOnNl cs
    else
      match splitOnNl cs with
      | p :: ps => (c :: p) :: ps
      | [] => [[c]]

/-- Helper for `splitWords`: accumulates the current word (reversed). -/
def splitWordsAux : List Char → List Char → List (List Char)
  | [], acc => if acc.isEmpty then [] else [acc.reverse]
  | c :: cs, acc =>
    if isPySpace c then
      if acc.isEmpty then splitWordsAux cs [] else acc.reverse :: splitWordsAux cs []
    else splitWordsAux cs (c :: acc)

/-- Python `str.split()` with no separator: split on whitespace runs,
dropping empty words. -/
def splitWords (l : List Char) : List (List Char) :=
  splitWordsAux l []

/-- Python `" ".join(words)`. -/
def joinSpace (ws : List (List Char)) : List Char :=
  List.intercalate [' '] ws

/-! ## Vector store (`src/vectordb/vector_store.py`) -/

/-- Metadata attached to one vector.  Merges the fields of
`VectorMetadata` (CSV rows/columns, where `chunk_idx` plays the role of
`row_idx` and `chunk_type` the role of `is_row_vector`/`column_name`) and
`DocumentChunkMetadata` from `src/utils/models.py`; the vector store
itself only ever consults `file_id`. -/
structure VMeta where
  file_id : String
  chunk_idx : ℤ
  chunk_type : String
  original_text : String
  question_text : Option String
  answer_text : Option String
  analysis_text : Option String
deriving DecidableEq

/-- The FAISS `IndexFlatL2` plus parallel metadata list of
`VectorStore.__init__`: `index` models the stored vectors (the FAISS
index contents), `metadata` the Python `self.metadata` list. -/
structure VectorStore where
  dimension : ℕ
  index : List (List ℚ)
  metadata : List VMeta
deriving DecidableEq

/-- Dot product of two rational vectors (trailing components of the longer
vector are ignored; all vectors of one store have equal length). -/
def dotQ : List ℚ → List ℚ → ℚ
  | a :: as, b :: bs => a * b + dotQ as bs
  | _, _ => 0

/-- Exact comparator for the normalize-then-L2 ranking of
`VectorStore.search`: decides whether the normalized `v` is at least as
close to the normalized query `q` as the normalized `w` is, i.e. whether
`cos(q,v) ≥ cos(q,w)`.  Writing `a = q·v`, `b = q·w`: the cosines have
the signs of `a` and `b`, and for equal signs comparing `a/√(v·v)` with
`b/√(w·w)` is equivalent to comparing `a²·(w·w)` with `b²·(v·v)`. -/
def simGe (q v w : List ℚ) : Bool :=
  let a := dotQ q v
  let b := dotQ q w
  if 0 ≤ a then
    if 0 ≤ b then decide (b ^ 2 * dotQ v v ≤ a ^ 2 * dotQ w w) else true
  else
    if 0 ≤ b then false else decide (a ^ 2 * dotQ w w ≤ b ^ 2 * dotQ v v)

/-- Insertion step of a stable insertion sort by a boolean relation. -/
def insertLe (le : α → α → Bool) (x : α) : List α → List α
  | [] => [x]
  | y :: ys => if le x y then x :: y :: ys else y :: insertLe le x ys

/-- Stable insertion sort by a boolean relation: elements that compare
equal keep their original relative order. -/
def sortLe (le : α → α → Bool) (l : List α) : List α :=
  l.foldr (insertLe le) []

/-- The index positions of the stored vectors ranked nearest-first for the
query `q`, as `self.index.search` returns them: ascending squared L2
distance between normalized vectors (ties keep insertion order). -/
def rankIdx (q : List ℚ) (vecs : List (List ℚ)) : List ℕ :=
  sortLe (fun i j => simGe q (vecs.getD i []) (vecs.getD j [])) (List.range vecs.length)

/-- Returns `true` when the computation failed with an exception. -/
def exceptIsError : Except String α → Bool
  | .error _ => true
  | .ok _ => false

/-- Embedding of `VectorStore.add_vectors` (vector_store.py lines 27-50): rejects a
batch whose vector count differs from its metadata count or whose vector
width differs from the store dimension, otherwise appends the vectors to
the index and the metadata to the metadata list.  `faiss.normalize_L2`
only rescales each vector (see the module comment); the stored list keeps
the unnormalized representative of the same direction. -/
def VectorStore.add_vectors (s : VectorStore) (vectors : List (List ℚ))
    (metadata : List VMeta) : Except String VectorStore :=
  if vectors.length ≠ metadata.length then
    .error "Number of vectors must match metadata length"
  else if ¬ (vectors.all fun v => v.length = s.dimension) then
    .error "Vector dimension does not match"
  else
    .ok ⟨s.dimension, s.index ++ vectors, s.metadata ++ metadata⟩

/-- Python truthiness of the optional `file_id` argument (`if file_id:`):
`None` and the empty string are falsy. -/
def fidTruthy : Option String → Bool
  | none => false
  | some f => f != ""

/-- The raw neighbour positions fetched by `search`:
`self.index.search(query, min(search_k, len(self.metadata)))`. -/
def VectorStore.searchRaw (s : VectorStore) (q : List ℚ) (searchK : ℕ) : List ℕ :=
  (rankIdx q s.index).take (min searchK s.metadata.length)

/-- The `continue` condition of the result loop of `search`:
`if file_id and meta.file_id != file_id`. -/
def skipMeta (fileId : Option String) (m : VMeta) : Bool :=
  match fileId with
  | some f => (f != "") && (m.file_id != f)
  | none => false

/-- The result loop of `search` (vector_store.py lines 78-92): walk the
raw neighbours in order, drop out-of-range positions, skip units whose
source does not match the filter, and stop as soon as `k` results are
collected. -/
def collectResults (metadata : List VMeta) (fileId : Option String) (k : ℕ) :
    List ℕ → List VMeta → List VMeta
  | [], acc => acc
  | idx :: rest, acc =>
    match metadata.get? idx with
    | some meta =>
      if skipMeta fileId meta then collectResults metadata fileId k rest acc
      else
        let acc2 := acc ++ [meta]
        if k ≤ acc2.length then acc2 else collectResults metadata fileId k rest acc2
    | none => collectResults metadata fileId k rest acc

/-- Embedding of `VectorStore.search` (vector_store.py lines 52-92).  The Python
function returns `(metadata, distance)` pairs; the float distances on
normalized vectors are irrational and no claim concerns their values, so
the model returns the ranked metadata. -/
def VectorStore.search (s : VectorStore) (q : List ℚ) (k : ℕ)
    (fileId : Option String) : List VMeta :=
  let searchK := if fidTruthy fileId then k * 10 else k
  collectResults s.metadata fileId k (s.searchRaw q searchK) []

/-- One `add_vectors` call as the Python caller experiences it: on an
exception the store object is unchanged (both checks in `add_vectors`
precede any mutation). -/
def applyAdd (s : VectorStore) (b : List (List ℚ) × List VMeta) : VectorStore :=
  match s.add_vectors b.1 b.2 with
  | .ok s2 => s2
  | .error _ => s

/-- A sequence of `add_vectors` calls (failed calls leave the store as it
was). -/
def runAdds (s : VectorStore) (batches : List (List (List ℚ) × List VMeta)) :
    VectorStore :=
  batches.foldl applyAdd s

/-- The metadata entry at one raw neighbour position when it carries the
requested source id (`none` for an out-of-range position or another
source). -/
def matchUnit (metadata : List VMeta) (f : String) (idx : ℕ) : Option VMeta :=
  match metadata.get? idx with
  | some m => if m.file_id == f then some m else none
  | none => none

/-- The units with the requested source id among the raw neighbours that a
filtered `search` fetches, in ranked order.  This is the reference set of
the over-fetch-then-filter description in the spec (§4.3): the search
result is exactly the first `k` of these. -/
def matchingFetched (s : VectorStore) (q : List ℚ) (k : ℕ) (f : String) :
    List VMeta :=
  (s.searchRaw q (k * 10)).filterMap (matchUnit s.metadata f)

/-! ## Pandas engine (`src/agents/pandas_engine.py`, `src/agents/ingestion.py`) -/

/-- A loaded dataframe: named columns and rows of rational cells (every
row has `cols.length` cells; the default pandas RangeIndex labels row `i`
with `i`). -/
structure DataFrame where
  cols : List String
  rows : List (List ℚ)
deriving DecidableEq

/-- Cell of a row at a column position. -/
def getCell (row : List ℚ) (ci : ℕ) : ℚ :=
  row.getD ci 0

/-- The values of one column. -/
def colValues (df : DataFrame) (ci : ℕ) : List ℚ :=
  df.rows.map fun r => getCell r ci

/-- Model of `df[column].mean()`: the arithmetic mean (the model has no missing
cells, so skipna is irrelevant; for an empty column pandas yields NaN —
claims are only stated for nonempty data). -/
def colMean (vals : List ℚ) : ℚ :=
  vals.sum / vals.length

/-- The registry `CSVIngestion.dataframes`: a Python dict `file_id -> df`
in insertion order, modelled as an association list. -/
def dfStore := List (String × DataFrame)

/-- Model of `self.dataframes[file_id] = df` (ingestion.py line 157): overwrite in
place if the key exists (a Python dict keeps the original position),
otherwise append. -/
def insertDF (store : List (String × DataFrame)) (fid : String) (df : DataFrame) :
    List (String × DataFrame) :=
  if store.any fun e => e.1 == fid then
    store.map fun e => if e.1 == fid then (fid, df) else e
  else store ++ [(fid, df)]

/-- A registry built by ingesting the given `(file_id, dataframe)` pairs
in order, starting from an empty registry. -/
def buildStore (ingests : List (String × DataFrame)) : List (String × DataFrame) :=
  ingests.foldl (fun st e => insertDF st e.1 e.2) []

/-- Model of `params.file_id or list(csv_ingestion.dataframes.keys())[0]`: an
omitted (or empty, hence falsy) source id falls back to the first key of
the insertion-ordered dict; `none` models the IndexError on an empty
registry. -/
def resolveFileId (store : List (String × DataFrame)) (p : Option String) :
    Option String :=
  if fidTruthy p then p else store.head?.map (·.1)

/-- Embedding of `CSVIngestion.get_dataframe`: lookup by file id (`none` models the
ValueError for an unknown id). -/
def get_dataframe (store : List (String × DataFrame)) (fid : String) :
    Option DataFrame :=
  (store.find? fun e => e.1 == fid).map (·.2)

/-- Parameters of `filter_threshold` (`FilterThresholdParams`). -/
structure FilterThresholdParams where
  column : String
  operator : String
  value : ℚ
  file_id : Option String

/-- The `numbers` summary of `filter_threshold` (pandas_engine.py lines
149-157). -/
structure FilterNumbers where
  total_rows : ℕ
  filtered_rows : ℕ
  filter_column : String
  filter_operator : String
  filter_value : ℚ
  percentage_matched : ℚ
  row_indices : List ℕ
deriving DecidableEq

/-- The operator dispatch of `filter_threshold` (lines 131-144); `none`
models the `Invalid operator` ValueError. -/
def opPred : String → Option (ℚ → ℚ → Bool)
  | ">" => some fun a b => decide (a > b)
  | "<" => some fun a b => decide (a < b)
  | ">=" => some fun a b => decide (a ≥ b)
  | "<=" => some fun a b => decide (a ≤ b)
  | "==" => some fun a b => decide (a = b)
  | "!=" => some fun a b => decide (a ≠ b)
  | _ => none

/-- Embedding of `PandasEngine.filter_threshold` (pandas_engine.py lines 111-159):
select the rows satisfying the predicate, return the first 100 of them as
the result table, and report total rows, filtered rows, match percentage
and the first 100 original row positions. -/
def filter_threshold (store : List (String × DataFrame))
    (p : FilterThresholdParams) : Except String (List (List ℚ) × FilterNumbers) :=
  match resolveFileId store p.file_id with
  | none => .error "No files loaded"
  | some fid =>
    match get_dataframe store fid with
    | none => .error "File not loaded"
    | some df =>
      match df.cols.findIdx? (fun c => c == p.column) with
      | none => .error "Column not found"
      | some ci =>
        match opPred p.operator with
        | none => .error "Invalid operator"
        | some pred =>
          let filtered := df.rows.enum.filter fun e => pred (getCell e.2 ci) p.value
          .ok ((filtered.map (·.2)).take 100,
            ⟨df.rows.length, filtered.length, p.column, p.operator, p.value,
              (if df.rows.length = 0 then 0
               else (filtered.length : ℚ) / (df.rows.length : ℚ) * 100),
              (filtered.map (·.1)).take 100⟩)

/-- Sort key comparison of `df.sort_values(by=column, ascending=...)`. -/
def keyLe (ci : ℕ) (ascending : Bool) (a b : ℕ × List ℚ) : Bool :=
  if ascending then decide (getCell a.2 ci ≤ getCell b.2 ci)
  else decide (getCell b.2 ci ≤ getCell a.2 ci)

/-- Model of `df.sort_values(by=column, ascending=...)` on the index-labelled rows.
The source calls pandas with the default `kind` (quicksort), whose tie
order pandas documents as NOT stable; this model commits to a stable
insertion sort, which over-specifies the tie order.  Facts proved below
never rely on the tie order except where explicitly flagged. -/
def sort_values (df : DataFrame) (ci : ℕ) (ascending : Bool) :
    List (ℕ × List ℚ) :=
  sortLe (keyLe ci ascending) df.rows.enum

/-- Parameters of `sort_data` (`SortParams`). -/
structure SortParams where
  column : String
  ascending : Bool
  file_id : Option String
  limit : Option ℕ

/-- The `numbers` summary of `sort_data` (pandas_engine.py lines 187-195). -/
structure SortNumbers where
  total_rows : ℕ
  returned_rows : ℕ
  sort_column : String
  ascending : Bool
  first_value : Option ℚ
  last_value : Option ℚ
  row_indices : List ℕ
deriving DecidableEq

/-- Embedding of `PandasEngine.sort_data` (pandas_engine.py lines 161-197).  Note
`if params.limit:` — a limit of `0` is falsy in Python and applies no
truncation. -/
def sort_data (store : List (String × DataFrame)) (p : SortParams) :
    Except String (List (List ℚ) × SortNumbers) :=
  match resolveFileId store p.file_id with
  | none => .error "No files loaded"
  | some fid =>
    match get_dataframe store fid with
    | none => .error "File not loaded"
    | some df =>
      match df.cols.findIdx? (fun c => c == p.column) with
      | none => .error "Column not found"
      | some ci =>
        let sorted0 := sort_values df ci p.ascending
        let sorted :=
          match p.limit with
          | some l => if l ≠ 0 then sorted0.take l else sorted0
          | none => sorted0
        .ok (sorted.map (·.2),
          ⟨df.rows.length, sorted.length, p.column, p.ascending,
            (sorted.head?).map (fun e => getCell e.2 ci),
            (sorted.getLast?).map (fun e => getCell e.2 ci),
            sorted.map (·.1)⟩)

/-- Parameters of `top_n` (`TopNParams`; pydantic enforces `n > 0`). -/
structure TopNParams where
  column : String
  n : ℕ
  ascending : Bool
  file_id : Option String

/-- The `numbers` summary of `top_n` (pandas_engine.py lines 226-234). -/
structure TopNNumbers where
  n : ℕ
  column : String
  top_values : List ℚ
  top_indices : List ℕ
  highest_value : Option ℚ
  lowest_in_top : Option ℚ
  average_of_top : Option ℚ
deriving DecidableEq

/-- Embedding of `PandasEngine.top_n` (pandas_engine.py lines 199-236): the same sort
as `sort_data`, truncated to `n`, with the arithmetic mean of the top-n
values (`np.mean`, `None` for an empty selection) added to the summary. -/
def top_n (store : List (String × DataFrame)) (p : TopNParams) :
    Except String (List (List ℚ) × TopNNumbers) :=
  match resolveFileId store p.file_id with
  | none => .error "No files loaded"
  | some fid =>
    match get_dataframe store fid with
    | none => .error "File not loaded"
    | some df =>
      match df.cols.findIdx? (fun c => c == p.column) with
      | none => .error "Column not found"
      | some ci =>
        let sorted := sort_values df ci p.ascending
        let top := sorted.take p.n
        let topValues := top.map fun e => getCell e.2 ci
        .ok (top.map (·.2),
          ⟨p.n, p.column, topValues, top.map (·.1),
            topValues.head?, topValues.getLast?,
            (if topValues.isEmpty then none
             else some (topValues.sum / topValues.length))⟩)

/-- Parameters of `compare_averages` (`CompareAveragesParams`). -/
structure CompareAveragesParams where
  column : String
  file1_id : Option String
  file2_id : Option String
  group_by : Option String

/-- The values reported by `compare_averages` (pandas_engine.py lines
50-107), one constructor per mode.  The Python result table is a
re-rendering of the same values.  `Option` models the NaN that pandas
produces on empty data (`std` additionally needs `n ≥ 2` with its default
`ddof=1`); `std_dev_sq` carries the square of the sample standard
deviation, whose square root is irrational in general. -/
inductive CompareResult where
  | twoFiles (file1_id file2_id : String) (avg1 avg2 diff pct : ℚ)
  | grouped (groupMeans : List (ℚ × ℚ)) (overall : ℚ)
      (maxAvg minAvg : Option ℚ)
  | singleFile (average std_dev_sq minV maxV : Option ℚ) (count : ℕ)
deriving DecidableEq

/-- Sorted distinct keys of a column, as `df.groupby(key)` orders the
groups. -/
def dedupSorted (l : List ℚ) : List ℚ :=
  sortLe (fun a b => decide (a ≤ b)) l.dedup

/-- Model of `df.groupby(g)[column].mean()`: mean of the value column per distinct
key of the group column, keys ascending. -/
def groupMeansOf (df : DataFrame) (gi ci : ℕ) : List (ℚ × ℚ) :=
  (dedupSorted (colValues df gi)).map fun g =>
    (g, colMean ((df.rows.filter fun r => getCell r gi == g).map fun r => getCell r ci))

/-- Embedding of `PandasEngine.compare_averages` (pandas_engine.py lines 22-109).
Three modes: both file ids truthy → per-file mean, difference
`avg1 - avg2`, percent difference relative to `avg2` (0 when `avg2 = 0`);
else a truthy `group_by` → per-group means with overall/max/min; else a
single-file summary. -/
def compare_averages (store : List (String × DataFrame))
    (p : CompareAveragesParams) : Except String CompareResult :=
  if fidTruthy p.file1_id && fidTruthy p.file2_id then
    match get_dataframe store (p.file1_id.getD ""), get_dataframe store (p.file2_id.getD "") with
    | some df1, some df2 =>
      match df1.cols.findIdx? (fun c => c == p.column),
            df2.cols.findIdx? (fun c => c == p.column) with
      | some c1, some c2 =>
        let avg1 := colMean (colValues df1 c1)
        let avg2 := colMean (colValues df2 c2)
        let diff := avg1 - avg2
        .ok (.twoFiles (p.file1_id.getD "") (p.file2_id.getD "") avg1 avg2 diff
          (if avg2 ≠ 0 then diff / avg2 * 100 else 0))
      | _, _ => .error "Column not found in both files"
    | _, _ => .error "File not loaded"
  else if fidTruthy p.group_by then
    match resolveFileId store p.file1_id with
    | none => .error "No files loaded"
    | some fid =>
      match get_dataframe store fid with
      | none => .error "File not loaded"
      | some df =>
        match df.cols.findIdx? (fun c => c == p.column),
              df.cols.findIdx? (fun c => c == p.group_by.getD "") with
        | some ci, some gi =>
          let gm := groupMeansOf df gi ci
          .ok (.grouped gm (colMean (colValues df ci))
            ((gm.map Prod.snd).max?) ((gm.map Prod.snd).min?))
        | _, _ => .error "Columns not found"
  else
    match resolveFileId store p.file1_id with
    | none => .error "No files loaded"
    | some fid =>
      match get_dataframe store fid with
      | none => .error "File not loaded"
      | some df =>
        match df.cols.findIdx? (fun c => c == p.column) with
        | none => .error "Column not found"
        | some ci =>
          let vals := colValues df ci
          .ok (.singleFile
            (if vals.isEmpty then none else some (colMean vals))
            (if vals.length ≤ 1 then none
             else some (((vals.map fun x => (x - colMean vals) ^ 2).sum)
               / ((vals.length - 1 : ℕ) : ℚ)))
            vals.min? vals.max? df.rows.length)

/-! ## Document ingestion (`src/agents/document_ingestion.py`) -/

/-- Python `words[-(overlap // 5):]` of `chunk_text` line 121: the last
`overlap/5` words of the closed chunk (all words when `overlap // 5 = 0`,
because `words[-0:]` is the whole list). -/
def overlapWords (overlap : ℕ) (current : List Char) : List (List Char) :=
  let ws := splitWords current
  let m := overlap / 5
  if m = 0 then ws else ws.drop (ws.length - m)

/-- The paragraph loop of `DocumentIngestion.chunk_text` (lines 110-128):
arguments are the remaining paragraphs, the closed chunks and the running
buffer. -/
def chunkLoop (chunkSize overlap : ℕ) :
    List (List Char) → List (List Char) → List Char → List (List Char)
  | [], chunks, current => if current.isEmpty then chunks else chunks ++ [current]
  | para0 :: ps, chunks, current =>
    let para := pyStrip para0
    if para.isEmpty then chunkLoop chunkSize overlap ps chunks current
    else if chunkSize < current.length + para.length ∧ ¬ current.isEmpty then
      chunkLoop chunkSize overlap ps (chunks ++ [current])
        (joinSpace (overlapWords overlap current) ++ ' ' :: para)
    else
      chunkLoop chunkSize overlap ps chunks
        (if current.isEmpty then para else current ++ '\n' :: para)

/-- Embedding of `DocumentIngestion.chunk_text` (document_ingestion.py lines 87-130);
the source defaults are `chunk_size = 1000`, `overlap = 200`. -/
def chunk_text (text : String) (chunkSize overlap : ℕ) : List String :=
  (chunkLoop chunkSize overlap (splitOnNl text.toList) [] []).map List.asString

/-- Whether the pattern (first argument) is a prefix of the text. -/
def chStartsWith : List Char → List Char → Bool
  | [], _ => true
  | _ :: _, [] => false
  | p :: ps, c :: cs => p == c && chStartsWith ps cs

/-- Length of the leading whitespace run (the regex `\s*`). -/
def wsCount (l : List Char) : ℕ :=
  (l.takeWhile isPySpace).length

/-- Length of the leading digit run (the regex `\d+` consumes maximally;
digits are never `:` so backtracking cannot produce a different match). -/
def digitsCount (l : List Char) : ℕ :=
  (l.takeWhile Char.isDigit).length

/-- The regex lookahead `(?=Q\d+:)`: text starts with `Q`, one or more
digits, then `:`. -/
def qNumColonAt (s : List Char) : Bool :=
  match s with
  | 'Q' :: rest =>
    decide (0 < digitsCount rest) &&
      (match rest.drop (digitsCount rest) with
       | ':' :: _ => true
       | _ => false)
  | _ => false

/-- Lookahead of the question pattern: a blank line followed by `Ans:`,
or end of input. -/
def qLook (s : List Char) : Bool :=
  chStartsWith "\n\nAns:".toList s || s.isEmpty

/-- Lookahead of the answer pattern: a blank line followed by
`ANALYSIS:`, or a following question marker, or end of input. -/
def ansLook (s : List Char) : Bool :=
  chStartsWith "\n\nANALYSIS:".toList s || qNumColonAt s || s.isEmpty

/-- Lookahead of the analysis pattern: a following question marker or end
of input. -/
def analysisLook (s : List Char) : Bool :=
  qNumColonAt s || s.isEmpty

/-- The lazy group `(.+?)(?=look)` of the DOTALL patterns: the shortest
nonempty prefix after which the lookahead holds; returns the group and
the remainder (the match ends where the zero-width lookahead holds). -/
def contentUntil (look : List Char → Bool) : List Char → Option (List Char × List Char)
  | [] => none
  | c :: cs =>
    if look cs then some ([c], cs)
    else
      match contentUntil look cs with
      | some (g, rm) => some (c :: g, rm)
      | none => none

/-- The `\s*(.+?)(?=look)` tail shared by the three patterns.  The greedy
`\s*` takes the longest whitespace run that still leaves at least one
character for the lazy group (the engine backtracks `\s*` by exactly one
character when the input ends in whitespace); with no character left at
all the pattern fails. -/
def matchBody (look : List Char → Bool) (afterColon : List Char) :
    Option (List Char × List Char) :=
  if afterColon.isEmpty then none
  else contentUntil look (afterColon.drop (min (wsCount afterColon) (afterColon.length - 1)))

/-- One attempt of the question pattern `Q\d+:\s*(.+?)(?=\n\nAns:|$)`
(DOTALL) at the start of `s`: returns the group and the remainder after
the match. -/
def tryQuestionMatch (s : List Char) : Option (List Char × List Char) :=
  match s with
  | c :: rest =>
    if c = 'Q' then
      if digitsCount rest = 0 then none
      else
        match rest.drop (digitsCount rest) with
        | ':' :: afterColon => matchBody qLook afterColon
        | _ => none
    else none
  | [] => none

/-- Model of `re.finditer` of the question pattern: scan left to right, restart
after each match end; the fuel is an upper bound on the number of steps
(every step consumes at least one character). -/
def scanQAux : ℕ → List Char → ℕ → List (ℕ × List Char)
  | 0, _, _ => []
  | fuel + 1, s, pos =>
    match tryQuestionMatch s with
    | some (g, rm) => (pos, g) :: scanQAux fuel rm (pos + (s.length - rm.length))
    | none =>
      match s with
      | [] => []
      | _ :: t => scanQAux fuel t (pos + 1)

/-- All question matches of a text with their start positions
(`q_match.start()`). -/
def questionMatches (text : String) : List (ℕ × List Char) :=
  scanQAux (text.toList.length + 1) text.toList 0

/-- One attempt of the answer pattern
`Ans:\s*(.+?)(?=\n\nANALYSIS:|Q\d+:|$)` at the start of `s`. -/
def tryAnsMatch (s : List Char) : Option (List Char × List Char) :=
  if chStartsWith "Ans:".toList s then matchBody ansLook (s.drop 4) else none

/-- One attempt of the analysis pattern `ANALYSIS:\s*(.+?)(?=Q\d+:|$)` at
the start of `s`. -/
def tryAnalysisMatch (s : List Char) : Option (List Char × List Char) :=
  if chStartsWith "ANALYSIS:".toList s then matchBody analysisLook (s.drop 9) else none

/-- Model of `re.search`: the group of the leftmost match of the pattern. -/
def searchFirstAux (tryM : List Char → Option (List Char × List Char)) :
    List Char → Option (List Char)
  | [] => (tryM []).map (·.1)
  | c :: cs =>
    match tryM (c :: cs) with
    | some (g, _) => some g
    | none => searchFirstAux tryM cs

/-- One question/answer/analysis triple
(`extract_questions_and_answers` output entry). -/
structure QAPair where
  question : String
  answer : String
  analysis : String
deriving DecidableEq

/-- The loop body of `extract_questions_and_answers` (lines 152-168) for
one question match: search the answer and analysis patterns in the text
from the match start on; a missing match leaves the field empty. -/
def qaEntry (chars : List Char) (pr : ℕ × List Char) : QAPair :=
  let tail := chars.drop pr.1
  ⟨(pyStrip pr.2).asString,
    (match searchFirstAux tryAnsMatch tail with
     | some g => (pyStrip g).asString
     | none => ""),
    (match searchFirstAux tryAnalysisMatch tail with
     | some g => (pyStrip g).asString
     | none => "")⟩

/-- Embedding of `DocumentIngestion.extract_questions_and_answers`
(document_ingestion.py lines 132-170): one triple per question match. -/
def extract_questions_and_answers (text : String) : List QAPair :=
  (questionMatches text).map (qaEntry text.toList)

/-- Metadata of one ingested document (`DocumentMetadata` of
`src/utils/models.py`; the filename and wall-clock timestamp fields are
outside the embedded core). -/
structure DocMeta where
  file_id : String
  document_type : String
  num_characters : ℕ
  num_chunks : ℕ
  num_qa_pairs : ℕ
  has_questions : Bool
deriving DecidableEq

/-- Model of `np.vstack`: stacking an empty list of arrays raises
`ValueError: need at least one array to concatenate`. -/
def np_vstack (l : List (List ℚ)) : Except String (List (List ℚ)) :=
  if l.isEmpty then .error "need at least one array to concatenate" else .ok l

/-- The combined text embedded for one QA pair
(document_ingestion.py lines 288-290). -/
def qaCombinedText (qa : QAPair) : String :=
  "Question: " ++ qa.question ++ "\nAnswer: " ++ qa.answer
    ++ (if qa.analysis ≠ "" then "\nAnalysis: " ++ qa.analysis else "")

/-- Python `s[:500]`. -/
def take500 (s : String) : String :=
  (s.toList.take 500).asString

/-- Metadata of one text chunk vector (lines 270-277). -/
def chunkVMeta (fileId : String) (idx : ℕ) (chunk : String) : VMeta :=
  ⟨fileId, (idx : ℤ), "text", take500 chunk, none, none, none⟩

/-- Metadata of one QA pair vector (lines 295-303). -/
def qaVMeta (fileId : String) (numChunks idx : ℕ) (qa : QAPair) : VMeta :=
  ⟨fileId, ((numChunks + idx : ℕ) : ℤ), "qa_pair", take500 (qaCombinedText qa),
    some qa.question, some qa.answer, some qa.analysis⟩

/-- Embedding of `DocumentIngestion._vectorize_document` (lines 238-313): embed every
chunk and every QA pair, stack the embeddings (`np.vstack`, which fails
on an empty list) and add them to a fresh store of dimension
`settings.VECTOR_DIMENSION = 3072`.  `embed` is the external
`gemini_client.generate_embedding`. -/
def vectorize_document (embed : String → List ℚ) (chunks : List String)
    (qaPairs : List QAPair) (fileId : String) : Except String VectorStore :=
  let vectorsList := chunks.map embed ++ qaPairs.map fun qa => embed (qaCombinedText qa)
  let metadataList := (chunks.enum.map fun e => chunkVMeta fileId e.1 e.2)
    ++ (qaPairs.enum.map fun e => qaVMeta fileId chunks.length e.1 e.2)
  match np_vstack vectorsList with
  | .error e => .error e
  | .ok arr => VectorStore.add_vectors ⟨3072, [], []⟩ arr metadataList

/-- Embedding of `DocumentIngestion.ingest_document` (lines 172-236) for already-read
text: dispatch on the (lowercased) filename suffix, extract QA pairs,
chunk, build the metadata, then vectorize when requested (the default).
The Python method also stores text/metadata/chunks in in-memory dicts
before vectorizing and stamps the ingestion time; the returned value and
the success/failure behaviour are modelled. -/
def ingest_document (embed : String → List ℚ) (suffix : String) (text : String)
    (fileId : String) (vectorize : Bool) (chunkSize : ℕ) :
    Except String (DocMeta × Option VectorStore) :=
  if suffix = ".txt" ∨ suffix = ".docx" then
    let qaPairs := extract_questions_and_answers text
    let chunks := chunk_text text chunkSize 200
    let metadata : DocMeta :=
      ⟨fileId, if suffix = ".txt" then "txt" else "docx", text.length,
        chunks.length, qaPairs.length, decide (0 < qaPairs.length)⟩
    if vectorize then
      match vectorize_document embed chunks qaPairs fileId with
      | .ok store => .ok (metadata, some store)
      | .error e => .error e
    else .ok (metadata, none)
  else .error "Unsupported file type"

/-! ## Concrete data used by witnesses and counterexamples -/

/-- The metadata list of the search counterexample store: eleven units,
the first ten from source `B`, the last from source `A`. -/
def ceMeta (t : ℕ) : VMeta :=
  ⟨if t = 10 then "A" else "B", (t : ℤ), "text", "", none, none, none⟩

/-- A store of eleven 2-dimensional vectors `(1, t)`, `t = 0..10`, whose
cosine similarity to the query `(1, 0)` is `1/√(1+t²)` — strictly
decreasing in `t`, so the raw neighbour ranking is `0, 1, …, 10`. -/
def ceStore : VectorStore :=
  ⟨2,
    [[1, 0], [1, 1], [1, 2], [1, 3], [1, 4], [1, 5],
      [1, 6], [1, 7], [1, 8], [1, 9], [1, 10]],
    [ceMeta 0, ceMeta 1, ceMeta 2, ceMeta 3, ceMeta 4, ceMeta 5,
      ceMeta 6, ceMeta 7, ceMeta 8, ceMeta 9, ceMeta 10]⟩

/-- The ten-row price table of the concrete spec scenario (§8). -/
def priceDF : DataFrame :=
  ⟨["price"], [[10.5], [20], [15.5], [30], [25.5], [12], [18.5], [22], [16.5], [28]]⟩

/-- A registry holding the price table under id `sales`. -/
def priceStore : List (String × DataFrame) :=
  [("sales", priceDF)]

/-- Two single-column tables with means 1 and 2, under ids `A` and `B`. -/
def abStore : List (String × DataFrame) :=
  [("A", ⟨["x"], [[1]]⟩), ("B", ⟨["x"], [[2]]⟩)]

/-! ## Helper lemmas -/

theorem insertLe_length (le : α → α → Bool) (x : α) (l : List α) :
    (insertLe le x l).length = l.length + 1 := by
  induction l with
  | nil => rfl
  | cons y ys ih =>
    simp only [insertLe]
    split
    · simp
    · simp [ih]

theorem sortLe_length (le : α → α → Bool) (l : List α) :
    (sortLe le l).length = l.length := by
  induction l with
  | nil => rfl
  | cons x xs ih =>
    show (insertLe le x (sortLe le xs)).length = xs.length + 1
    rw [insertLe_length, ih]

theorem rankIdx_length (q : List ℚ) (vecs : List (List ℚ)) :
    (rankIdx q vecs).length = vecs.length := by
  unfold rankIdx
  rw [sortLe_length, List.length_range]

theorem searchRaw_length (s : VectorStore) (q : List ℚ) (searchK : ℕ)
    (hlen : s.index.length = s.metadata.length) :
    (s.searchRaw q searchK).length = min searchK s.index.length := by
  unfold VectorStore.searchRaw
  rw [List.length_take, rankIdx_length, hlen]
  omega

theorem matchUnit_none (metadata : List VMeta) (f : String) (idx : ℕ)
    (hm : metadata.get? idx = none) : matchUnit metadata f idx = none := by
  unfold matchUnit
  rw [hm]

theorem matchUnit_skip (metadata : List VMeta) (f : String) (idx : ℕ) (m : VMeta)
    (hm : metadata.get? idx = some m) (h : m.file_id ≠ f) :
    matchUnit metadata f idx = none := by
  unfold matchUnit
  rw [hm]
  simp [h]

theorem matchUnit_keep (metadata : List VMeta) (f : String) (idx : ℕ) (m : VMeta)
    (hm : metadata.get? idx = some m) (h : m.file_id = f) :
    matchUnit metadata f idx = some m := by
  unfold matchUnit
  rw [hm]
  simp [h]

theorem collectResults_cons_some (metadata : List VMeta) (fid : Option String)
    (k idx : ℕ) (rest : List ℕ) (acc : List VMeta) (m : VMeta)
    (hm : metadata.get? idx = some m) :
    collectResults metadata fid k (idx :: rest) acc
      = if skipMeta fid m = true then collectResults metadata fid k rest acc
        else if k ≤ (acc ++ [m]).length then acc ++ [m]
        else collectResults metadata fid k rest (acc ++ [m]) := by
  conv_lhs => rw [collectResults]
  rw [hm]

theorem collectResults_cons_none (metadata : List VMeta) (fid : Option String)
    (k idx : ℕ) (rest : List ℕ) (acc : List VMeta)
    (hm : metadata.get? idx = none) :
    collectResults metadata fid k (idx :: rest) acc
      = collectResults metadata fid k rest acc := by
  conv_lhs => rw [collectResults]
  rw [hm]

theorem collectResults_filter_take (metadata : List VMeta) (f : String)
    (hf : f ≠ "") (k : ℕ) :
    ∀ (raw : List ℕ) (acc : List VMeta), acc.length < k →
      collectResults metadata (some f) k raw acc
        = acc ++ (raw.filterMap (matchUnit metadata f)).take (k - acc.length) := by
  intro raw
  induction raw with
  | nil => intro acc _; simp [collectResults]
  | cons idx rest ih =>
    intro acc hacc
    cases hm : metadata.get? idx with
    | none =>
      rw [collectResults_cons_none metadata (some f) k idx rest acc hm,
        List.filterMap_cons, matchUnit_none metadata f idx hm]
      exact ih acc hacc
    | some m =>
      rw [collectResults_cons_some metadata (some f) k idx rest acc m hm,
        List.filterMap_cons]
      by_cases hskip : m.file_id = f
      · have hsk : skipMeta (some f) m = false := by
          simp [skipMeta, hskip]
        rw [hsk, matchUnit_keep metadata f idx m hm hskip]
        simp only [Bool.false_eq_true, if_false]
        by_cases hfull : k ≤ (acc ++ [m]).length
        · rw [if_pos hfull]
          have h1 : k - acc.length = 1 := by
            simp at hfull
            omega
          rw [h1]
          simp
        · rw [if_neg hfull]
          have hlt : (acc ++ [m]).length < k := by
            simp at hfull ⊢
            omega
          rw [ih (acc ++ [m]) hlt]
          have h2 : k - acc.length = (k - (acc ++ [m]).length) + 1 := by
            simp
            omega
          rw [h2]
          simp [List.take_succ_cons]
      · have hsk : skipMeta (some f) m = true := by
          simp [skipMeta, hf, hskip]
        rw [hsk, matchUnit_skip metadata f idx m hm hskip]
        simp only [if_true]
        exact ih acc hacc

theorem search_eq_matchingFetched_take (s : VectorStore) (q : List ℚ) (k : ℕ)
    (f : String) (hf : f ≠ "") :
    s.search q k (some f) = (matchingFetched s q k f).take k := by
  have hT : fidTruthy (some f) = true := by simp [fidTruthy, hf]
  unfold VectorStore.search matchingFetched
  rw [hT]
  simp only [if_true]
  cases k with
  | zero =>
    have : s.searchRaw q (0 * 10) = [] := by
      unfold VectorStore.searchRaw
      simp
    rw [this]
    simp [collectResults]
  | succ n =>
    rw [collectResults_filter_take s.metadata f hf (n + 1) _ [] (by simp)]
    simp

theorem insertDF_ne_nil (store : List (String × DataFrame)) (fid : String)
    (df : DataFrame) : insertDF store fid df ≠ [] := by
  unfold insertDF
  split
  · cases store with
    | nil => simp_all
    | cons a t => simp
  · simp

theorem insertDF_headKey (store : List (String × DataFrame)) (fid : String)
    (df : DataFrame) (h : store ≠ []) :
    (insertDF store fid df).head?.map Prod.fst = store.head?.map Prod.fst := by
  cases store with
  | nil => exact absurd rfl h
  | cons a t =>
    unfold insertDF
    split
    · simp only [List.map_cons, List.head?_cons, Option.map_some]
      by_cases ha : a.1 == fid
      · rw [if_pos ha]
        have : a.1 = fid := by simpa using ha
        simp [this]
      · rw [if_neg ha]
    · simp

theorem foldl_insertDF_headKey (rest : List (String × DataFrame)) :
    ∀ (st : List (String × DataFrame)), st ≠ [] →
      (rest.foldl (fun s e => insertDF s e.1 e.2) st) ≠ []
      ∧ (rest.foldl (fun s e => insertDF s e.1 e.2) st).head?.map Prod.fst
          = st.head?.map Prod.fst := by
  induction rest with
  | nil => intro st h; exact ⟨h, rfl⟩
  | cons e t ih =>
    intro st h
    have h2 := insertDF_ne_nil st e.1 e.2
    have h3 := ih (insertDF st e.1 e.2) h2
    refine ⟨h3.1, ?_⟩
    rw [List.foldl_cons]
    rw [h3.2, insertDF_headKey st e.1 e.2 h]

theorem mem_filterMap_matchUnit (metadata : List VMeta) (f : String)
    (raw : List ℕ) (m : VMeta) (hm : m ∈ raw.filterMap (matchUnit metadata f)) :
    m.file_id = f := by
  rcases List.mem_filterMap.mp hm with ⟨idx, _, hidx⟩
  cases hg : metadata.get? idx with
  | none =>
    rw [matchUnit_none metadata f idx hg] at hidx
    exact absurd hidx (by simp)
  | some m2 =>
    by_cases hq : m2.file_id = f
    · rw [matchUnit_keep metadata f idx m2 hg hq] at hidx
      have : m2 = m := by simpa using hidx
      rw [← this]
      exact hq
    · rw [matchUnit_skip metadata f idx m2 hg hq] at hidx
      exact absurd hidx (by simp)

theorem applyAdd_preserves (s : VectorStore) (b : List (List ℚ) × List VMeta)
    (h : s.index.length = s.metadata.length) :
    (applyAdd s b).index.length = (applyAdd s b).metadata.length := by
  cases hadd : s.add_vectors b.1 b.2 with
  | error e =>
    unfold applyAdd
    rw [hadd]
    exact h
  | ok s2 =>
    unfold applyAdd
    rw [hadd]
    show s2.index.length = s2.metadata.length
    unfold VectorStore.add_vectors at hadd
    split_ifs at hadd with h1 h2
    cases hadd
    push_neg at h1
    simp [List.length_append, h, h1]

/-- Claim C1: for every vector store, after any sequence of `add_vectors`
calls the number of vectors in the index equals the number of metadata
entries; a call whose vector count differs from its metadata count, or
whose vector width differs from the store dimension, fails, and a failed
call leaves both the index and the metadata sequence unchanged, so the
count equality holds at all times. -/
theorem c1_add_vectors_count_invariant :
    (∀ (s : VectorStore) (batches : List (List (List ℚ) × List VMeta)),
        s.index.length = s.metadata.length →
        (runAdds s batches).index.length = (runAdds s batches).metadata.length)
    ∧ (∀ (s : VectorStore) (vs : List (List ℚ)) (ms : List VMeta),
        vs.length ≠ ms.length → exceptIsError (s.add_vectors vs ms) = true)
    ∧ (∀ (s : VectorStore) (vs : List (List ℚ)) (ms : List VMeta) (v : List ℚ),
        v ∈ vs → v.length ≠ s.dimension → exceptIsError (s.add_vectors vs ms) = true)
    ∧ (∀ (s : VectorStore) (vs : List (List ℚ)) (ms : List VMeta),
        exceptIsError (s.add_vectors vs ms) = true → applyAdd s (vs, ms) = s) := by
  refine ⟨?_, ?_, ?_, ?_⟩
  · intro s batches
    induction batches generalizing s with
    | nil => intro h; exact h
    | cons b bs ih =>
      intro h
      rw [runAdds, List.foldl_cons]
      exact ih (applyAdd s b) (applyAdd_preserves s b h)
  · intro s vs ms h
    unfold VectorStore.add_vectors
    rw [if_pos h]
    rfl
  · intro s vs ms v hv hlen
    have hall : ¬ (vs.all fun v => v.length = s.dimension) := by
      simp only [List.all_eq_true, decide_eq_true_eq]
      intro hforall
      exact hlen (hforall v hv)
    unfold VectorStore.add_vectors
    split_ifs with h1
    · rfl
    · rfl
  · intro s vs ms h
    unfold applyAdd
    cases hadd : s.add_vectors vs ms with
    | error e => rfl
    | ok s2 =>
      rw [hadd] at h
      simp [exceptIsError] at h

/-- Witness for C1 at a concrete store and batch sequence: the invariant
holds after two calls (the second of which fails its dimension check),
and a count-mismatched call fails. -/
theorem c1_add_vectors_count_invariant_witness :
    (runAdds ⟨2, [], []⟩
        [([[1, 2], [3, 4]], [⟨"A", 0, "", "", none, none, none⟩,
            ⟨"A", 1, "", "", none, none, none⟩]),
         ([[5]], [⟨"A", 2, "", "", none, none, none⟩])]).index.length
      = (runAdds ⟨2, [], []⟩
        [([[1, 2], [3, 4]], [⟨"A", 0, "", "", none, none, none⟩,
            ⟨"A", 1, "", "", none, none, none⟩]),
         ([[5]], [⟨"A", 2, "", "", none, none, none⟩])]).metadata.length
    ∧ exceptIsError (VectorStore.add_vectors ⟨2, [], []⟩ [[1, 2]] []) = true :=
  ⟨c1_add_vectors_count_invariant.1 ⟨2, [], []⟩ _ rfl,
    c1_add_vectors_count_invariant.2.1 ⟨2, [], []⟩ [[1, 2]] [] (by decide)⟩

/-- Claim C2 (amended): for every search with a nonempty source filter,
every returned unit carries the filtered source id; the implementation
fetches `min(k × 10, index size)` raw neighbours; and the result has
fewer than `k` entries only if fewer than `k` units with that source id
appear among the fetched raw neighbours. -/
theorem c2_search_source_filter (s : VectorStore) (q : List ℚ) (k : ℕ) (f : String)
    (hf : f ≠ "") (hlen : s.index.length = s.metadata.length) :
    (∀ m ∈ s.search q k (some f), m.file_id = f)
    ∧ (s.searchRaw q (k * 10)).length = min (k * 10) s.index.length
    ∧ ((s.search q k (some f)).length < k → (matchingFetched s q k f).length < k) := by
  refine ⟨?_, searchRaw_length s q (k * 10) hlen, ?_⟩
  · intro m hm
    rw [search_eq_matchingFetched_take s q k f hf] at hm
    exact mem_filterMap_matchUnit s.metadata f _ m (List.mem_of_mem_take hm)
  · intro hlt
    rw [search_eq_matchingFetched_take s q k f hf, List.length_take] at hlt
    omega

/-- Witness for C2 at the concrete eleven-vector store: the filter is
nonempty, the store is count-consistent, and the fetch size follows the
`min(k × 10, index size)` rule. -/
theorem c2_search_source_filter_witness :
    (("A" : String) ≠ "")
    ∧ ceStore.index.length = ceStore.metadata.length
    ∧ (ceStore.searchRaw [1, 0] (1 * 10)).length = min (1 * 10) ceStore.index.length :=
  ⟨by decide, by decide,
    (c2_search_source_filter ceStore [1, 0] 1 "A" (by decide) (by decide)).2.1⟩

set_option maxHeartbeats 4000000 in
/-- Counterexample to C2 as stated: in `ceStore` the query `(1, 0)` with
`k = 1` and source filter `A` over-fetches `min(10, 11) = 10` raw
neighbours — all from source `B` — so the search returns no result even
though one unit of source `A` (at least `k`) exists in the index. -/
theorem c2_counterexample :
    (ceStore.search [1, 0] 1 (some "A")).length < 1
    ∧ 1 ≤ (ceStore.metadata.filter fun m => m.file_id == "A").length := by
  have hA : ("A" : String) ≠ "" := by decide
  have hB : ¬ (("B" : String) = "A") := by decide
  have hr : List.range 11 = [0, 1, 2, 3, 4, 5, 6, 7, 8, 9, 10] := by decide
  constructor
  · have h : ceStore.search [1, 0] 1 (some "A") = [] := by
      norm_num [VectorStore.search, VectorStore.searchRaw, rankIdx, sortLe, insertLe,
        simGe, dotQ, collectResults, skipMeta, fidTruthy, ceStore, ceMeta,
        List.getD, matchUnit, hA, hB, hr]
    rw [h]
    simp
  · decide

/-- Claim C3: `filter_threshold` with operator `>` selects exactly the
rows whose column value is strictly greater than the threshold (so the
matching and non-matching rows partition the table), the summary reports
the total row count, the filtered row count, the match percentage and at
most 100 matching row positions, and the result rows are capped at
100. -/
theorem c3_filter_threshold_gt (store : List (String × DataFrame)) (column : String)
    (x : ℚ) (fidp : Option String) (fid : String) (df : DataFrame) (ci : ℕ)
    (hfid : resolveFileId store fidp = some fid)
    (hdf : get_dataframe store fid = some df)
    (hci : df.cols.findIdx? (fun c => c == column) = some ci) :
    filter_threshold store ⟨column, ">", x, fidp⟩
      = .ok (((df.rows.enum.filter fun e => decide (getCell e.2 ci > x)).map (·.2)).take 100,
          ⟨df.rows.length,
            (df.rows.enum.filter fun e => decide (getCell e.2 ci > x)).length,
            column, ">", x,
            (if df.rows.length = 0 then 0
             else ((df.rows.enum.filter fun e => decide (getCell e.2 ci > x)).length : ℚ)
               / (df.rows.length : ℚ) * 100),
            ((df.rows.enum.filter fun e => decide (getCell e.2 ci > x)).map (·.1)).take 100⟩)
    ∧ (∀ e ∈ df.rows.enum,
        e ∈ df.rows.enum.filter (fun e => decide (getCell e.2 ci > x)) ↔ getCell e.2 ci > x)
    ∧ (df.rows.enum.filter fun e => decide (getCell e.2 ci > x)).length
        + (df.rows.enum.filter fun e => decide (¬ getCell e.2 ci > x)).length
        = df.rows.length
    ∧ (((df.rows.enum.filter fun e => decide (getCell e.2 ci > x)).map (·.2)).take 100).length
        ≤ 100
    ∧ (((df.rows.enum.filter fun e => decide (getCell e.2 ci > x)).map (·.1)).take 100).length
        ≤ 100 := by
  refine ⟨?_, ?_, ?_, List.length_take_le 100 _, List.length_take_le 100 _⟩
  · simp only [filter_threshold, hfid, hdf, hci]
    rfl
  · intro e he
    simp [List.mem_filter, he]
  · have h := (@List.length_eq_length_filter_add _ df.rows.enum
      (fun e => decide (getCell e.2 ci > x))).symm
    rw [List.enum_length] at h
    simp only [decide_not]
    exact h

/-- Witness for C3 at the price table of the concrete spec scenario:
hypotheses hold at `priceStore` and the matching/non-matching rows
partition the ten-row table. -/
theorem c3_filter_threshold_gt_witness :
    resolveFileId priceStore none = some "sales"
    ∧ get_dataframe priceStore "sales" = some priceDF
    ∧ (priceDF.rows.enum.filter fun e => decide (getCell e.2 0 > (20 : ℚ))).length
        + (priceDF.rows.enum.filter fun e => decide (¬ getCell e.2 0 > (20 : ℚ))).length
        = priceDF.rows.length :=
  ⟨by rfl, by rfl,
    (c3_filter_threshold_gt priceStore "price" 20 none "sales" priceDF 0
      (by rfl) (by rfl) (by rfl)).2.2.1⟩

theorem sort_values_length (df : DataFrame) (ci : ℕ) (asc : Bool) :
    (sort_values df ci asc).length = df.rows.length := by
  unfold sort_values
  rw [sortLe_length, List.enum_length]

/-- Claim C5: for every table, column and `n > 0`, the result rows of
`top_n(column, n, ascending := false)` equal the first `n` rows of
`sort_data(column, ascending := false)`, and the `top_n` summary
additionally reports the arithmetic mean of the top-n values. -/
theorem c5_top_n_eq_sort_take (store : List (String × DataFrame)) (column : String)
    (n : ℕ) (fidp : Option String) (fid : String) (df : DataFrame) (ci : ℕ)
    (hn : 0 < n) (hrows : df.rows ≠ [])
    (hfid : resolveFileId store fidp = some fid)
    (hdf : get_dataframe store fid = some df)
    (hci : df.cols.findIdx? (fun c => c == column) = some ci) :
    top_n store ⟨column, n, false, fidp⟩
      = .ok (((sort_values df ci false).take n).map (·.2),
          ⟨n, column,
            ((sort_values df ci false).take n).map (fun e => getCell e.2 ci),
            ((sort_values df ci false).take n).map (·.1),
            (((sort_values df ci false).take n).map (fun e => getCell e.2 ci)).head?,
            (((sort_values df ci false).take n).map (fun e => getCell e.2 ci)).getLast?,
            (if (((sort_values df ci false).take n).map (fun e => getCell e.2 ci)).isEmpty
             then none
             else some ((((sort_values df ci false).take n).map (fun e => getCell e.2 ci)).sum
               / ((((sort_values df ci false).take n).map (fun e => getCell e.2 ci)).length : ℚ)))⟩)
    ∧ sort_data store ⟨column, false, fidp, none⟩
      = .ok ((sort_values df ci false).map (·.2),
          ⟨df.rows.length, (sort_values df ci false).length, column, false,
            ((sort_values df ci false).head?).map (fun e => getCell e.2 ci),
            ((sort_values df ci false).getLast?).map (fun e => getCell e.2 ci),
            (sort_values df ci false).map (·.1)⟩)
    ∧ ((sort_values df ci false).take n).map (·.2)
        = ((sort_values df ci false).map (·.2)).take n
    ∧ (if (((sort_values df ci false).take n).map (fun e => getCell e.2 ci)).isEmpty
       then none
       else some ((((sort_values df ci false).take n).map (fun e => getCell e.2 ci)).sum
         / ((((sort_values df ci false).take n).map (fun e => getCell e.2 ci)).length : ℚ)))
        = some ((((sort_values df ci false).take n).map (fun e => getCell e.2 ci)).sum
          / ((((sort_values df ci false).take n).map (fun e => getCell e.2 ci)).length : ℚ)) := by
  have hne : (((sort_values df ci false).take n).map (fun e => getCell e.2 ci)) ≠ [] := by
    intro hemp
    have hlen := congrArg List.length hemp
    rw [List.length_map, List.length_take, sort_values_length] at hlen
    have hr0 : 0 < df.rows.length := List.length_pos.mpr hrows
    simp only [List.length_nil] at hlen
    have hpos : 0 < min n df.rows.length := lt_min hn hr0
    rw [hlen] at hpos
    exact absurd hpos (lt_irrefl 0)
  refine ⟨?_, ?_, ?_, ?_⟩
  · simp only [top_n, hfid, hdf, hci]
  · simp only [sort_data, hfid, hdf, hci]
  · exact List.map_take _ _ _
  · cases hTV : (((sort_values df ci false).take n).map (fun e => getCell e.2 ci)) with
    | nil => exact absurd hTV hne
    | cons a l => simp

/-- Witness for C5 at the price table with `n = 3`: the `top_n` result
rows are the first three rows of the full descending sort. -/
theorem c5_top_n_eq_sort_take_witness :
    (0 < 3 ∧ priceDF.rows ≠ [])
    ∧ ((sort_values priceDF 0 false).take 3).map (·.2)
        = ((sort_values priceDF 0 false).map (·.2)).take 3 :=
  ⟨⟨by decide, by simp [priceDF]⟩,
    (c5_top_n_eq_sort_take priceStore "price" 3 none "sales" priceDF 0
      (by decide) (by simp [priceDF]) (by rfl) (by rfl) (by rfl)).2.2.1⟩

/-- Claim C6 (amended): `compare_averages` with both source ids given
reports each source mean of the column, the signed difference
`mean1 − mean2` of the two means, and the percent difference relative to
the mean of source 2, which is 0 when that mean is 0. -/
theorem c6_compare_averages_two_files (store : List (String × DataFrame))
    (p : CompareAveragesParams) (f1 f2 : String) (df1 df2 : DataFrame) (c1 c2 : ℕ)
    (h1 : p.file1_id = some f1) (h1t : f1 ≠ "")
    (h2 : p.file2_id = some f2) (h2t : f2 ≠ "")
    (hdf1 : get_dataframe store f1 = some df1)
    (hdf2 : get_dataframe store f2 = some df2)
    (hc1 : df1.cols.findIdx? (fun c => c == p.column) = some c1)
    (hc2 : df2.cols.findIdx? (fun c => c == p.column) = some c2) :
    compare_averages store p
      = .ok (.twoFiles f1 f2 (colMean (colValues df1 c1)) (colMean (colValues df2 c2))
          (colMean (colValues df1 c1) - colMean (colValues df2 c2))
          (if colMean (colValues df2 c2) ≠ 0
           then (colMean (colValues df1 c1) - colMean (colValues df2 c2))
             / colMean (colValues df2 c2) * 100
           else 0)) := by
  have ht1 : fidTruthy (some f1) = true := by simp [fidTruthy, h1t]
  have ht2 : fidTruthy (some f2) = true := by simp [fidTruthy, h2t]
  simp only [compare_averages, h1, h2, ht1, ht2, Bool.and_self, if_true,
    Option.getD_some, hdf1, hdf2, hc1, hc2]

/-- Witness for C6 at the two one-row tables `A` (mean 1) and `B`
(mean 2). -/
theorem c6_compare_averages_two_files_witness :
    get_dataframe abStore "A" = some ⟨["x"], [[1]]⟩
    ∧ get_dataframe abStore "B" = some ⟨["x"], [[2]]⟩
    ∧ compare_averages abStore ⟨"x", some "A", some "B", none⟩
      = .ok (.twoFiles "A" "B" (colMean (colValues ⟨["x"], [[1]]⟩ 0))
          (colMean (colValues ⟨["x"], [[2]]⟩ 0))
          (colMean (colValues ⟨["x"], [[1]]⟩ 0) - colMean (colValues ⟨["x"], [[2]]⟩ 0))
          (if colMean (colValues ⟨["x"], [[2]]⟩ 0) ≠ 0
           then (colMean (colValues ⟨["x"], [[1]]⟩ 0) - colMean (colValues ⟨["x"], [[2]]⟩ 0))
             / colMean (colValues ⟨["x"], [[2]]⟩ 0) * 100
           else 0)) :=
  ⟨by rfl, by rfl,
    c6_compare_averages_two_files abStore ⟨"x", some "A", some "B", none⟩
      "A" "B" ⟨["x"], [[1]]⟩ ⟨["x"], [[2]]⟩ 0 0
      (by rfl) (by decide) (by rfl) (by decide) (by rfl) (by rfl) (by rfl) (by rfl)⟩

/-- Counterexample to C6 as stated: with source means 1 and 2 the
reported difference is `1 − 2 = −1` (and the percent difference `−50`),
while the absolute difference of the two means is `|1 − 2| = 1 ≠ −1`:
the code reports the signed difference, not the absolute difference. -/
theorem c6_counterexample :
    compare_averages abStore ⟨"x", some "A", some "B", none⟩
      = .ok (.twoFiles "A" "B" 1 2 (-1) (-50))
    ∧ ((-1 : ℚ) ≠ |(1 : ℚ) - (2 : ℚ)|) := by
  have hAB : (("A" : String) == "B") = false := by decide
  have hBB : (("B" : String) == "B") = true := by decide
  have hAA : (("A" : String) == "A") = true := by decide
  have hxx : (("x" : String) == "x") = true := by decide
  have hA : ¬ (("A" : String) = "") := by decide
  have hB : ¬ (("B" : String) = "") := by decide
  constructor
  · norm_num [compare_averages, abStore, get_dataframe, fidTruthy, colMean,
      colValues, getCell, List.find?, List.findIdx?, List.findIdx?_cons,
      hAB, hBB, hAA, hxx, hA, hB]
  · norm_num

theorem chunkLoop_skip (cs ov : ℕ) (ps : List (List Char)) (chunks : List (List Char))
    (cur p0 : List Char) (hp : pyStrip p0 = []) :
    chunkLoop cs ov (p0 :: ps) chunks cur = chunkLoop cs ov ps chunks cur := by
  conv_lhs => rw [chunkLoop]
  simp [hp]

theorem chunkLoop_close (cs ov : ℕ) (ps : List (List Char)) (chunks : List (List Char))
    (cur p0 : List Char) (hcur : cur ≠ [])
    (hsz : cs < cur.length + (pyStrip p0).length) (hp : pyStrip p0 ≠ []) :
    chunkLoop cs ov (p0 :: ps) chunks cur
      = chunkLoop cs ov ps (chunks ++ [cur])
          (joinSpace (overlapWords ov cur) ++ ' ' :: pyStrip p0) := by
  conv_lhs => rw [chunkLoop]
  have h1 : (pyStrip p0).isEmpty = false := by simp [hp]
  have h2 : cur.isEmpty = false := by simp [hcur]
  simp only [h1, Bool.false_eq_true, if_false]
  rw [if_pos ⟨hsz, by simp [h2]⟩]

theorem chunkLoop_acc (cs ov : ℕ) (ps : List (List Char)) (chunks : List (List Char))
    (cur p0 : List Char) (hp : pyStrip p0 ≠ [])
    (hno : ¬ (cs < cur.length + (pyStrip p0).length ∧ cur ≠ [])) :
    chunkLoop cs ov (p0 :: ps) chunks cur
      = chunkLoop cs ov ps chunks
          (if cur.isEmpty then pyStrip p0 else cur ++ '\n' :: pyStrip p0) := by
  conv_lhs => rw [chunkLoop]
  have h1 : (pyStrip p0).isEmpty = false := by simp [hp]
  simp only [h1, Bool.false_eq_true, if_false]
  rw [if_neg]
  intro hand
  exact hno ⟨hand.1, by simpa using hand.2⟩

theorem chunkLoop_final (cs ov : ℕ) (chunks : List (List Char)) (cur : List Char)
    (hcur : cur ≠ []) :
    chunkLoop cs ov [] chunks cur = chunks ++ [cur] := by
  conv_lhs => rw [chunkLoop]
  have h2 : cur.isEmpty = false := by simp [hcur]
  simp [h2]

/-- Claim C7: chunking iterates the paragraphs (the text split on line
breaks, blank paragraphs dropped) accumulating them into a buffer; when
appending the next paragraph would make the buffer exceed the target
size and the buffer is nonempty, the current chunk is closed and the
next buffer is seeded with the last `overlap/5` words (40 words at the
default overlap 200) of the closed chunk followed by the new paragraph;
otherwise the paragraph is appended; the final nonempty buffer is always
emitted as the last chunk. -/
theorem c7_chunking_algorithm :
    (∀ (text : String) (cs ov : ℕ),
        chunk_text text cs ov
          = (chunkLoop cs ov (splitOnNl text.toList) [] []).map List.asString)
    ∧ (∀ (cs ov : ℕ) (ps chunks : List (List Char)) (cur p0 : List Char),
        pyStrip p0 = [] →
        chunkLoop cs ov (p0 :: ps) chunks cur = chunkLoop cs ov ps chunks cur)
    ∧ (∀ (cs ov : ℕ) (ps chunks : List (List Char)) (cur p0 : List Char),
        cur ≠ [] → cs < cur.length + (pyStrip p0).length → pyStrip p0 ≠ [] →
        chunkLoop cs ov (p0 :: ps) chunks cur
          = chunkLoop cs ov ps (chunks ++ [cur])
              (joinSpace (overlapWords ov cur) ++ ' ' :: pyStrip p0))
    ∧ (∀ (cs ov : ℕ) (ps chunks : List (List Char)) (cur p0 : List Char),
        pyStrip p0 ≠ [] → ¬ (cs < cur.length + (pyStrip p0).length ∧ cur ≠ []) →
        chunkLoop cs ov (p0 :: ps) chunks cur
          = chunkLoop cs ov ps chunks
              (if cur.isEmpty then pyStrip p0 else cur ++ '\n' :: pyStrip p0))
    ∧ (∀ (cs ov : ℕ) (chunks : List (List Char)) (cur : List Char),
        cur ≠ [] → chunkLoop cs ov [] chunks cur = chunks ++ [cur])
    ∧ (∀ cur : List Char,
        overlapWords 200 cur = (splitWords cur).drop ((splitWords cur).length - 40)) := by
  refine ⟨fun _ _ _ => rfl, ?_, ?_, ?_, ?_, ?_⟩
  · intro cs ov ps chunks cur p0 hp
    exact chunkLoop_skip cs ov ps chunks cur p0 hp
  · intro cs ov ps chunks cur p0 hcur hsz hp
    exact chunkLoop_close cs ov ps chunks cur p0 hcur hsz hp
  · intro cs ov ps chunks cur p0 hp hno
    exact chunkLoop_acc cs ov ps chunks cur p0 hp hno
  · intro cs ov chunks cur hcur
    exact chunkLoop_final cs ov chunks cur hcur
  · intro cur
    simp [overlapWords]

/-- Witness for C7: one concrete close-and-seed step (target size 5,
overlap 10, buffer `abc`, next paragraph `defg`) and one final-buffer
emission. -/
theorem c7_chunking_algorithm_witness :
    ("abc".toList ≠ []
      ∧ 5 < "abc".toList.length + (pyStrip "defg".toList).length
      ∧ pyStrip "defg".toList ≠ [])
    ∧ chunkLoop 5 10 ["defg".toList] [] "abc".toList
        = chunkLoop 5 10 [] (["abc".toList])
            (joinSpace (overlapWords 10 "abc".toList) ++ ' ' :: pyStrip "defg".toList) :=
  ⟨⟨by decide, by decide, by decide⟩,
    c7_chunking_algorithm.2.2.1 5 10 [] [] "abc".toList "defg".toList
      (by decide) (by decide) (by decide)⟩

theorem pyStrip_blank (p : List Char) (h : ∀ c ∈ p, isPySpace c = true) :
    pyStrip p = [] := by
  unfold pyStrip
  have hd : p.dropWhile isPySpace = [] := List.dropWhile_eq_nil_iff.mpr h
  rw [hd]
  rfl

theorem splitOnNl_ne_nil (l : List Char) : splitOnNl l ≠ [] := by
  induction l with
  | nil => simp [splitOnNl]
  | cons c cs ih =>
    rw [splitOnNl]
    split
    · simp
    · cases h : splitOnNl cs with
      | nil => exact absurd h ih
      | cons p ps => simp [h]

theorem splitOnNl_blank (l : List Char) (h : ∀ c ∈ l, isPySpace c = true) :
    ∀ p ∈ splitOnNl l, ∀ c ∈ p, isPySpace c = true := by
  induction l with
  | nil =>
    intro p hp c hc
    simp [splitOnNl] at hp
    rw [hp] at hc
    cases hc
  | cons a as ih =>
    have has : ∀ c ∈ as, isPySpace c = true := fun c hc => h c (List.mem_cons_of_mem a hc)
    intro p hp c hc
    rw [splitOnNl] at hp
    by_cases ha : a == '\n'
    · rw [if_pos ha] at hp
      rcases List.mem_cons.mp hp with h1 | h1
      · rw [h1] at hc
        cases hc
      · exact ih has p h1 c hc
    · rw [if_neg ha] at hp
      obtain ⟨p0, ps0, hsp⟩ : ∃ p0 ps0, splitOnNl as = p0 :: ps0 := by
        cases hx : splitOnNl as with
        | nil => exact absurd hx (splitOnNl_ne_nil as)
        | cons p0 ps0 => exact ⟨p0, ps0, rfl⟩
      rw [hsp] at hp
      rcases List.mem_cons.mp hp with h1 | h1
      · rw [h1] at hc
        rcases List.mem_cons.mp hc with h2 | h2
        · rw [h2]
          exact h a (List.mem_cons_self a as)
        · exact ih has p0 (by rw [hsp]; exact List.mem_cons_self p0 ps0) c h2
      · exact ih has p (by rw [hsp]; exact List.mem_cons_of_mem p0 h1) c hc

theorem chunkLoop_all_blank (cs ov : ℕ) :
    ∀ ps : List (List Char), (∀ p ∈ ps, pyStrip p = []) →
      chunkLoop cs ov ps [] [] = [] := by
  intro ps
  induction ps with
  | nil => intro _; rfl
  | cons p t ih =>
    intro h
    rw [chunkLoop_skip cs ov t [] [] p (h p (List.mem_cons_self p t))]
    exact ih fun q hq => h q (List.mem_cons_of_mem p hq)

theorem chunk_text_blank (text : String) (cs : ℕ)
    (h : ∀ c ∈ text.toList, isPySpace c = true) :
    chunk_text text cs 200 = [] := by
  unfold chunk_text
  rw [chunkLoop_all_blank cs 200 (splitOnNl text.toList)
    (fun p hp => pyStrip_blank p (splitOnNl_blank text.toList h p hp))]
  rfl

theorem tryQuestionMatch_not_q (c : Char) (t : List Char) (hc : c ≠ 'Q') :
    tryQuestionMatch (c :: t) = none := by
  simp [tryQuestionMatch, hc]

theorem scanQAux_all_blank :
    ∀ (fuel : ℕ) (s : List Char) (pos : ℕ), (∀ c ∈ s, isPySpace c = true) →
      scanQAux fuel s pos = [] := by
  intro fuel
  induction fuel with
  | zero => intro s pos _; rfl
  | succ n ih =>
    intro s pos h
    cases s with
    | nil => rfl
    | cons c t =>
      have hc : c ≠ 'Q' := by
        intro hEq
        have hw := h c (List.mem_cons_self c t)
        rw [hEq] at hw
        exact absurd hw (by decide)
      rw [scanQAux, tryQuestionMatch_not_q c t hc]
      exact ih t (pos + 1) fun d hd => h d (List.mem_cons_of_mem c hd)

theorem extract_blank (text : String) (h : ∀ c ∈ text.toList, isPySpace c = true) :
    extract_questions_and_answers text = [] := by
  unfold extract_questions_and_answers questionMatches
  rw [scanQAux_all_blank (text.toList.length + 1) text.toList 0 h]
  rfl

/-- Claim C8 (amended): ingesting an empty (or all-blank) document of a
recognized kind with `vectorize := false` succeeds, producing zero
chunks and zero QA units with metadata reflecting zero counts; with
`vectorize := true` (the source default) the very same ingestion fails,
because stacking the empty embedding list (`np.vstack` of `[]`)
raises. -/
theorem c8_ingest_empty_document (embed : String → List ℚ) (text : String)
    (fileId : String) (cs : ℕ) (hws : text.toList.all isPySpace = true) :
    ingest_document embed ".txt" text fileId false cs
      = .ok (⟨fileId, "txt", text.length, 0, 0, false⟩, none)
    ∧ ingest_document embed ".txt" text fileId true cs
      = .error "need at least one array to concatenate" := by
  have h : ∀ c ∈ text.toList, isPySpace c = true := List.all_eq_true.mp hws
  have hch : chunk_text text cs 200 = [] := chunk_text_blank text cs h
  have hqa : extract_questions_and_answers text = [] := extract_blank text h
  have hsuf : (".txt" : String) = ".txt" ∨ (".txt" : String) = ".docx" := Or.inl rfl
  constructor
  · simp only [ingest_document, hch, hqa, if_pos hsuf]
    rfl
  · simp only [ingest_document, hch, hqa, if_pos hsuf]
    rfl

/-- Witness for C8 at the all-blank text `" \n"`. -/
theorem c8_ingest_empty_document_witness :
    (" \n".toList.all isPySpace = true)
    ∧ ingest_document (fun _ => []) ".txt" " \n" "doc1" false 1000
        = .ok (⟨"doc1", "txt", " \n".length, 0, 0, false⟩, none) :=
  ⟨by decide,
    (c8_ingest_empty_document (fun _ => []) " \n" "doc1" 1000 (by decide)).1⟩

/-- Counterexample to C8 as stated: ingesting the empty text with the
default `vectorize := true` fails (`np.vstack` of the empty embedding
list raises), so ingestion does not always succeed on empty input. -/
theorem c8_counterexample :
    ingest_document (fun _ => []) ".txt" "" "doc1" true 1000
      = .error "need at least one array to concatenate" := by
  rfl

/-- Claim C9: QA extraction returns one triple per matched question (the
question section is required; the answer and analysis sections are
searched separately and may be missing), and a match with an empty
answer is retained in the output with an empty answer field rather than
being discarded. -/
theorem c9_qa_extraction :
    (∀ text, (extract_questions_and_answers text).length = (questionMatches text).length)
    ∧ (∀ (text : String) (pr : ℕ × List Char), pr ∈ questionMatches text →
        qaEntry text.toList pr ∈ extract_questions_and_answers text)
    ∧ extract_questions_and_answers "Q1: What is X?" = [⟨"What is X?", "", ""⟩] := by
  refine ⟨?_, ?_, by decide⟩
  · intro text
    exact List.length_map _ _
  · intro text pr hpr
    exact List.mem_map_of_mem _ hpr

/-- Witness for C9: the single question match of `"Q1: What is X?"` has
no answer section, and its triple — with the empty answer field — is in
the output. -/
theorem c9_qa_extraction_witness :
    ((0, "What is X?".toList) ∈ questionMatches "Q1: What is X?")
    ∧ qaEntry "Q1: What is X?".toList (0, "What is X?".toList)
        ∈ extract_questions_and_answers "Q1: What is X?" :=
  ⟨by decide,
    c9_qa_extraction.2.1 "Q1: What is X?" (0, "What is X?".toList) (by decide)⟩

/-- Claim C10: whenever the `file_id` parameter is omitted (or empty,
hence falsy) and sources are loaded, every query-engine operation
deterministically operates on the earliest-ingested source: the fallback
resolves to the first-ingested id and each operation behaves as if that
id had been passed. -/
theorem c10_default_source_earliest (f0 : String) (df0 : DataFrame)
    (rest : List (String × DataFrame)) (hf0 : f0 ≠ "") :
    resolveFileId (buildStore ((f0, df0) :: rest)) none = some f0
    ∧ (∀ (column op : String) (x : ℚ),
        filter_threshold (buildStore ((f0, df0) :: rest)) ⟨column, op, x, none⟩
          = filter_threshold (buildStore ((f0, df0) :: rest)) ⟨column, op, x, some f0⟩)
    ∧ (∀ (column : String) (asc : Bool) (lim : Option ℕ),
        sort_data (buildStore ((f0, df0) :: rest)) ⟨column, asc, none, lim⟩
          = sort_data (buildStore ((f0, df0) :: rest)) ⟨column, asc, some f0, lim⟩)
    ∧ (∀ (column : String) (n : ℕ) (asc : Bool),
        top_n (buildStore ((f0, df0) :: rest)) ⟨column, n, asc, none⟩
          = top_n (buildStore ((f0, df0) :: rest)) ⟨column, n, asc, some f0⟩) := by
  have hbuild : buildStore ((f0, df0) :: rest)
      = rest.foldl (fun s e => insertDF s e.1 e.2) [(f0, df0)] := rfl
  have hhd := (foldl_insertDF_headKey rest [(f0, df0)] (by simp)).2
  simp only [List.head?_cons, Option.map_some] at hhd
  have hres : resolveFileId (buildStore ((f0, df0) :: rest)) none = some f0 := by
    unfold resolveFileId
    rw [hbuild]
    simpa [fidTruthy] using hhd
  have hres2 : resolveFileId (buildStore ((f0, df0) :: rest)) (some f0) = some f0 := by
    unfold resolveFileId
    simp [fidTruthy, hf0]
  refine ⟨hres, ?_, ?_, ?_⟩
  · intro column op x
    simp only [filter_threshold, hres, hres2]
  · intro column asc lim
    simp only [sort_data, hres, hres2]
  · intro column n asc
    simp only [top_n, hres, hres2]

/-- Witness for C10 at a registry built from two ingests: the omitted
source id resolves to the first-ingested id. -/
theorem c10_default_source_earliest_witness :
    (("first" : String) ≠ "")
    ∧ resolveFileId (buildStore [("first", ⟨["a"], []⟩), ("second", ⟨["a"], []⟩)]) none
        = some "first" :=
  ⟨by decide,
    (c10_default_source_earliest "first" ⟨["a"], []⟩ [("second", ⟨["a"], []⟩)]
      (by decide)).1⟩
